import Mathlib

set_option maxHeartbeats 1600000

/-!
Verification development for the NexusAnest perioperative-risk core:
a shallow embedding of `src/ai_analysis.py` (prompt building, remote
invocation, response normalization, content-addressed cache),
`src/scores.py` (RCRI, ARISCAT, AKICS) and `src/risk_scores.py`
(`calculate_rcri`), together with theorems settling the frozen claims.

Python dictionaries are modelled as insertion-ordered association lists
with unique keys; Python values appearing in the pipeline are modelled by
the inductive type `JVal` below.  Braces inside string literals are
written with the escapes \x7b and \x7d.
-/

/-- Characters referenced by code point, used by the parsers and printers. -/
def lbraceC : Char := Char.ofNat 123

def rbraceC : Char := Char.ofNat 125

def dquoteC : Char := Char.ofNat 34

def squoteC : Char := Char.ofNat 39

def backslashC : Char := Char.ofNat 92

def sLBrace : String := String.singleton lbraceC

def sRBrace : String := String.singleton rbraceC

/-- Model of the Python values flowing through the AI-analysis pipeline
(JSON values plus the Python literals the code can produce). -/
inductive JVal where
  | null : JVal
  | bool (b : Bool) : JVal
  | num (n : Int) : JVal
  | str (s : String) : JVal
  | arr (xs : List JVal) : JVal
  | obj (fields : List (String × JVal)) : JVal

/-- A Python `dict` with string keys: insertion-ordered association list. -/
abbrev JObj := List (String × JVal)

/-- `d.get(k)` / `d[k]` lookup: first (unique) matching key. -/
def alGet {α : Type} : List (String × α) → String → Option α
  | [], _ => none
  | (k', v) :: rest, k => if k' = k then some v else alGet rest k

/-- `d[k] = v`: replace in place if the key exists (Python dicts keep the
original position on re-assignment), otherwise append at the end. -/
def alSet {α : Type} : List (String × α) → String → α → List (String × α)
  | [], k, v => [(k, v)]
  | (k', v') :: rest, k, v =>
    if k' = k then (k, v) :: rest else (k', v') :: alSet rest k v

/-- `d.setdefault(k, v)`. -/
def alSetdefault {α : Type} (o : List (String × α)) (k : String) (v : α) :
    List (String × α) :=
  if (alGet o k).isSome then o else alSet o k v

/-- `k in d`. -/
def alContains {α : Type} (o : List (String × α)) (k : String) : Bool :=
  (alGet o k).isSome

/-- `list(d.keys())`. -/
def alKeys {α : Type} (o : List (String × α)) : List String := o.map Prod.fst

/-- Python truthiness of a `JVal` (`bool(v)`). -/
def JVal.truthy : JVal → Bool
  | .null => false
  | .bool b => b
  | .num n => n != 0
  | .str s => s != ""
  | .arr xs => !xs.isEmpty
  | .obj fs => !fs.isEmpty

/-- `True` when the value is a Python list. -/
def JVal.isArr : JVal → Bool
  | .arr _ => true
  | _ => false

/-- Python's `repr` of a string (single-quoted; escaping of quote
characters inside the string is not modelled — no claim exercises it). -/
def pyQuote (s : String) : String :=
  String.singleton squoteC ++ s ++ String.singleton squoteC

mutual

/-- Python `repr` of a value (used by `str` on containers). -/
def pyRepr : JVal → String
  | .null => "None"
  | .bool true => "True"
  | .bool false => "False"
  | .num n => toString n
  | .str s => pyQuote s
  | .arr xs => "[" ++ pyReprList xs ++ "]"
  | .obj fs => sLBrace ++ pyReprFields fs ++ sRBrace

def pyReprList : List JVal → String
  | [] => ""
  | [x] => pyRepr x
  | x :: y :: rest => pyRepr x ++ ", " ++ pyReprList (y :: rest)

def pyReprFields : List (String × JVal) → String
  | [] => ""
  | [(k, v)] => pyQuote k ++ ": " ++ pyRepr v
  | (k, v) :: y :: rest => pyQuote k ++ ": " ++ pyRepr v ++ ", " ++ pyReprFields (y :: rest)

end

/-- Python `str(v)`. -/
def pyStr : JVal → String
  | .str s => s
  | v => pyRepr v

/-- JSON string escaping (the code calls `json.dumps` with
`ensure_ascii=False`, so non-ASCII characters pass through). -/
def jsonEscapeChar (c : Char) : String :=
  if c = dquoteC then String.singleton backslashC ++ String.singleton dquoteC
  else if c = backslashC then String.singleton backslashC ++ String.singleton backslashC
  else if c = '\n' then String.singleton backslashC ++ "n"
  else if c = '\t' then String.singleton backslashC ++ "t"
  else if c = '\r' then String.singleton backslashC ++ "r"
  else String.singleton c

def jsonQuote (s : String) : String :=
  String.singleton dquoteC ++ String.join (s.toList.map jsonEscapeChar)
    ++ String.singleton dquoteC

mutual

/-- `json.dumps(v, ensure_ascii=False)` with default separators. -/
def dumpsV : JVal → String
  | .null => "null"
  | .bool true => "true"
  | .bool false => "false"
  | .num n => toString n
  | .str s => jsonQuote s
  | .arr xs => "[" ++ dumpsL xs ++ "]"
  | .obj fs => sLBrace ++ dumpsF fs ++ sRBrace

def dumpsL : List JVal → String
  | [] => ""
  | [x] => dumpsV x
  | x :: y :: rest => dumpsV x ++ ", " ++ dumpsL (y :: rest)

def dumpsF : List (String × JVal) → String
  | [] => ""
  | [(k, v)] => jsonQuote k ++ ": " ++ dumpsV v
  | (k, v) :: y :: rest => jsonQuote k ++ ": " ++ dumpsV v ++ ", " ++ dumpsF (y :: rest)

end

/-- Stable insertion of a field into a key-sorted field list. -/
def insertByKey (p : String × JVal) : List (String × JVal) → List (String × JVal)
  | [] => [p]
  | q :: rest => if p.1 ≤ q.1 then p :: q :: rest else q :: insertByKey p rest

/-- Sort fields by key (Python `sort_keys=True` sorts by code point). -/
def sortByKey : List (String × JVal) → List (String × JVal)
  | [] => []
  | p :: rest => insertByKey p (sortByKey rest)

mutual

/-- Recursively key-sort every object inside a value, so that
`dumpsV (sortJ v)` models `json.dumps(v, sort_keys=True, ensure_ascii=False)`. -/
def sortJ : JVal → JVal
  | .obj fs => .obj (sortByKey (sortJF fs))
  | .arr xs => .arr (sortJL xs)
  | v => v

def sortJL : List JVal → List JVal
  | [] => []
  | x :: r => sortJ x :: sortJL r

def sortJF : List (String × JVal) → List (String × JVal)
  | [] => []
  | (k, v) :: r => (k, sortJ v) :: sortJF r

end

/-! ### Parsers: models of `json.loads` and `ast.literal_eval`

The pipeline only distinguishes "the text parses to a `dict`" from "it does
not" (a successful parse to a non-dict falls through exactly like a parse
failure), so the parsers below model the stdlib ones on the dict-producing
fragment actually exercised: strings, integers, booleans, null/None, lists
and dicts.  Fractional/exponent numbers and a few exotic literal forms are
not modelled; on those the parsers fail, which at the `...Dict` level used
by the code coincides with the stdlib behaviour for every claim below. -/

def isWsC (c : Char) : Bool := c = ' ' || c = '\n' || c = '\t' || c = '\r'

def skipWs : List Char → List Char
  | [] => []
  | c :: rest => if isWsC c then skipWs rest else c :: rest

/-- Parser mode: strict JSON (`json.loads`) or Python literals
(`ast.literal_eval`). -/
inductive PMode where
  | js : PMode
  | py : PMode
deriving DecidableEq

/-- Parse the body of a quoted string terminated by `q`, decoding the
common escapes. -/
def parseStrChars (q : Char) : Nat → List Char → Option (String × List Char)
  | 0, _ => none
  | _, [] => none
  | fuel + 1, c :: rest =>
    if c = q then some ("", rest)
    else if c = backslashC then
      match rest with
      | [] => none
      | e :: rest2 =>
        let ec : Option Char :=
          if e = 'n' then some '\n'
          else if e = 't' then some '\t'
          else if e = 'r' then some '\r'
          else if e = backslashC then some backslashC
          else if e = dquoteC then some dquoteC
          else if e = squoteC then some squoteC
          else if e = '/' then some '/'
          else none
        match ec with
        | none => none
        | some ch =>
          match parseStrChars q fuel rest2 with
          | some (s, r) => some (String.singleton ch ++ s, r)
          | none => none
    else
      match parseStrChars q fuel rest with
      | some (s, r) => some (String.singleton c ++ s, r)
      | none => none

/-- Consume a run of digits, accumulating their value. -/
def digitsVal : List Char → Int → Int × List Char
  | [], acc => (acc, [])
  | c :: rest, acc =>
    if c.isDigit then digitsVal rest (acc * 10 + (c.toNat - 48 : Nat))
    else (acc, c :: rest)

/-- Parse an (optionally negated) integer literal; fractional and exponent
forms are rejected. -/
def parseNum (cs : List Char) : Option (JVal × List Char) :=
  let p : Bool × List Char :=
    match cs with
    | c :: rest => if c = '-' then (true, rest) else (false, cs)
    | [] => (false, [])
  match p.2 with
  | c :: _ =>
    if c.isDigit then
      let dv := digitsVal p.2 0
      let n : Int := if p.1 then -dv.1 else dv.1
      match dv.2 with
      | d :: _ => if d = '.' || d = 'e' || d = 'E' then none else some (.num n, dv.2)
      | [] => some (.num n, [])
    else none
  | [] => none

/-- Match a literal keyword at the head of the input. -/
def stripKeyword : List Char → List Char → Option (List Char)
  | [], rest => some rest
  | _ :: _, [] => none
  | k :: kr, c :: cr => if c = k then stripKeyword kr cr else none

/-- Keyword literals per mode: `true/false/null` for JSON,
`True/False/None` for Python. -/
def parseKeyword (m : PMode) (cs : List Char) : Option (JVal × List Char) :=
  let tt := if m = .js then "true" else "True"
  let ff := if m = .js then "false" else "False"
  let nn := if m = .js then "null" else "None"
  match stripKeyword tt.toList cs with
  | some r => some (.bool true, r)
  | none =>
    match stripKeyword ff.toList cs with
    | some r => some (.bool false, r)
    | none =>
      match stripKeyword nn.toList cs with
      | some r => some (.null, r)
      | none => none

mutual

/-- Parse one value. -/
def parseV (m : PMode) : Nat → List Char → Option (JVal × List Char)
  | 0, _ => none
  | fuel + 1, cs0 =>
    let cs := skipWs cs0
    match cs with
    | [] => none
    | c :: rest =>
      if c = dquoteC then
        match parseStrChars dquoteC (rest.length + 1) rest with
        | some (s, r) => some (.str s, r)
        | none => none
      else if c = squoteC ∧ m = .py then
        match parseStrChars squoteC (rest.length + 1) rest with
        | some (s, r) => some (.str s, r)
        | none => none
      else if c = lbraceC then
        let rest2 := skipWs rest
        match rest2 with
        | d :: r2 => if d = rbraceC then some (.obj [], r2) else parseObjBody m fuel rest2 []
        | [] => none
      else if c = '[' then
        let rest2 := skipWs rest
        match rest2 with
        | d :: r2 => if d = ']' then some (.arr [], r2) else parseArrBody m fuel rest2 []
        | [] => none
      else
        match parseKeyword m cs with
        | some res => some res
        | none => parseNum cs

/-- Parse `key : value` pairs after `{` (non-empty object).  In `py` mode a
trailing comma is tolerated, as `ast.literal_eval` does.  Non-string keys
(possible only in `py` mode) are converted with `str`, which the callers
do anyway. -/
def parseObjBody (m : PMode) : Nat → List Char → JObj → Option (JVal × List Char)
  | 0, _, _ => none
  | fuel + 1, cs, acc =>
    let keyRes : Option (String × List Char) :=
      match m with
      | .js =>
        match skipWs cs with
        | c :: rest =>
          if c = dquoteC then
            match parseStrChars dquoteC (rest.length + 1) rest with
            | some (s, r) => some (s, r)
            | none => none
          else none
        | [] => none
      | .py =>
        match parseV .py fuel cs with
        | some (.str s, r) => some (s, r)
        | some (v, r) => some (pyStr v, r)
        | none => none
    match keyRes with
    | none => none
    | some (key, r1) =>
      match skipWs r1 with
      | c :: r2 =>
        if c = ':' then
          match parseV m fuel r2 with
          | none => none
          | some (v, r3) =>
            let acc' := alSet acc key v
            match skipWs r3 with
            | d :: r4 =>
              if d = ',' then
                match skipWs r4 with
                | e :: r5 => if e = rbraceC ∧ m = .py then some (.obj acc', r5)
                             else parseObjBody m fuel (skipWs r4) acc'
                | [] => none
              else if d = rbraceC then some (.obj acc', r4)
              else none
            | [] => none
        else none
      | [] => none

/-- Parse comma-separated items after `[` (non-empty array); `py` mode
tolerates a trailing comma. -/
def parseArrBody (m : PMode) : Nat → List Char → List JVal → Option (JVal × List Char)
  | 0, _, _ => none
  | fuel + 1, cs, acc =>
    match parseV m fuel cs with
    | none => none
    | some (v, r1) =>
      let acc' := acc ++ [v]
      match skipWs r1 with
      | d :: r2 =>
        if d = ',' then
          match skipWs r2 with
          | e :: r3 => if e = ']' ∧ m = .py then some (.arr acc', r3)
                       else parseArrBody m fuel (skipWs r2) acc'
          | [] => none
        else if d = ']' then some (.arr acc', r2)
        else none
      | [] => none

end

/-- Parse a whole document: the value must consume the input up to
trailing whitespace (as `json.loads` and `ast.literal_eval` require). -/
def parseDoc (m : PMode) (s : String) : Option JVal :=
  let cs := s.toList
  match parseV m (cs.length + 1) cs with
  | some (v, rest) => if (skipWs rest).isEmpty then some v else none
  | none => none

/-- Model of `json.loads` (`None` = an exception was raised). -/
def jsonLoads (s : String) : Option JVal := parseDoc .js s

/-- Model of `ast.literal_eval` (`None` = an exception was raised). -/
def literalEval (s : String) : Option JVal := parseDoc .py s

/-- Keep the result only if it is a dict: the code pairs each parse with an
`isinstance(data, dict)` test and treats non-dicts like failures. -/
def asDict : Option JVal → Option JObj
  | some (.obj fs) => some fs
  | _ => none

def jsonLoadsDict (s : String) : Option JObj := asDict (jsonLoads s)

def literalEvalDict (s : String) : Option JObj := asDict (literalEval s)

/-! ### Models of the Python string methods used by the pipeline

Written over character lists by structural recursion (rather than through
the core library loops) so that every concrete instance in the theorems
below reduces inside the kernel.  `str.lower` is modelled on the ASCII
range, which covers every string the code lower-cases. -/

def lowerChar (c : Char) : Char :=
  if 65 ≤ c.toNat ∧ c.toNat ≤ 90 then Char.ofNat (c.toNat + 32) else c

/-- Python `str.lower`. -/
def pyLower (s : String) : String := String.mk (s.data.map lowerChar)

/-- Python `str.strip` (no arguments: remove surrounding whitespace). -/
def pyStrip (s : String) : String :=
  String.mk (((s.data.dropWhile isWsC).reverse.dropWhile isWsC).reverse)

def isPrefixChars : List Char → List Char → Bool
  | [], _ => true
  | _ :: _, [] => false
  | p :: pr, c :: cr => p = c && isPrefixChars pr cr

/-- Python `str.startswith`. -/
def pyStartsWith (s pre : String) : Bool := isPrefixChars pre.data s.data

def splitNlAux : List Char → List Char → List String
  | [], acc => [String.mk acc.reverse]
  | c :: rest, acc =>
    if c = '\n' then String.mk acc.reverse :: splitNlAux rest []
    else splitNlAux rest (c :: acc)

/-- Python `str.splitlines` on the texts reaching it here: they have been
`strip`-ed first, so they end with no newline and (being model output
handled by this code path) are split on `\n`. -/
def splitLines (s : String) : List String := splitNlAux s.data []

/-! ### `_normalize_top_keys` and `_parse_response_text` (`src/ai_analysis.py`) -/

/-- The `key_aliases` table of `_normalize_top_keys`. -/
def keyAliases : List (String × String) :=
  [("resumo", "resumo_executivo"),
   ("executive_summary", "resumo_executivo"),
   ("resumo_executivo", "resumo_executivo"),
   ("por_sistemas", "por_sistemas"),
   ("analise_por_sistemas", "por_sistemas"),
   ("analise_sistemas", "por_sistemas"),
   ("estratificacao_geral", "estratificacao_geral"),
   ("estratificação_geral", "estratificacao_geral"),
   ("overall_risk", "estratificacao_geral"),
   ("recomendacoes", "recomendacoes"),
   ("recomendações", "recomendacoes"),
   ("recommendations", "recomendacoes"),
   ("medicacoes", "medicacoes"),
   ("medicações", "medicacoes"),
   ("medications", "medicacoes"),
   ("monitorizacao", "monitorizacao"),
   ("monitorização", "monitorizacao"),
   ("monitoring", "monitorizacao")]

/-- The `m_alias` table of `_normalize_top_keys` (medication sub-keys). -/
def mAlias : List (String × String) :=
  [("suspender", "suspender"),
   ("suspensão", "suspender"),
   ("hold", "suspender"),
   ("manter", "manter"),
   ("continuar", "manter"),
   ("continue", "manter"),
   ("ajustar", "ajustar"),
   ("adjust", "ajustar")]

/-- Initial medication sub-object `m_out`. -/
def medKeysInit : JObj :=
  [("suspender", .arr []), ("manter", .arr []), ("ajustar", .arr [])]

/-- The list a medication value is stored as, if any:
`if isinstance(v, list): <store v> elif v: <store [str(v)]> else: <skip>`. -/
def coerceListVal (v : JVal) : Option JVal :=
  match v with
  | .arr xs => some (.arr xs)
  | v => if v.truthy then some (.arr [.str (pyStr v)]) else none

/-- One iteration of the medication-normalization loop:
`m_out.setdefault(kk, []); if isinstance(v, list): m_out[kk] = v
elif v: m_out[kk] = [str(v)]`. -/
def normMedStep (m : JObj) (kv : String × JVal) : JObj :=
  let kk := (alGet mAlias kv.1).getD kv.1
  let m1 := alSetdefault m kk (.arr [])
  match coerceListVal kv.2 with
  | some w => alSet m1 kk w
  | none => m1

/-- `_normalize_top_keys`. -/
def normalize_top_keys (data : JObj) : JObj :=
  let out := data.foldl (fun o kv => alSet o ((alGet keyAliases kv.1).getD kv.1) kv.2) []
  let out := alSetdefault out "resumo_executivo" (.str "")
  let out := alSetdefault out "por_sistemas" (.obj [])
  let out := alSetdefault out "estratificacao_geral" (.str "")
  let out := alSetdefault out "recomendacoes" (.arr [])
  let meds0 : JVal :=
    match alGet out "medicacoes" with
    | some v => if v.truthy then v else .obj []
    | none => .obj []
  let medsFields : JObj :=
    match meds0 with
    | .obj fs => fs
    | _ => []
  let mOut := medsFields.foldl normMedStep medKeysInit
  let out := alSet out "medicacoes" (.obj mOut)
  alSetdefault out "monitorizacao" (.arr [])

/-- Canonical `por_sistemas` default sub-schema. -/
def porSistemasDefault : JVal :=
  .obj [("cardiovascular", .arr []), ("pulmonar", .arr []),
        ("renal", .arr []), ("delirium", .arr [])]

/-- Canonical `medicacoes` default sub-schema. -/
def medicacoesDefault : JVal :=
  .obj [("suspender", .arr []), ("manter", .arr []), ("ajustar", .arr [])]

/-- The per-key typed default used by every backfill loop of
`_parse_response_text` (the same `if`/`elif` chain appears at each parse
stage and in the final fallback). -/
def perKeyDefault (k : String) : JVal :=
  if k = "por_sistemas" then porSistemasDefault
  else if k = "medicacoes" then medicacoesDefault
  else if k = "recomendacoes" ∨ k = "monitorizacao" then .arr []
  else .str ""

/-- `for key in expected_keys: if key not in norm: norm[key] = default`. -/
def ensure_expected (o : JObj) (eks : List String) : JObj :=
  eks.foldl (fun o k => if alContains o k then o else alSet o k (perKeyDefault k)) o

/-- Default expected keys when `expected_keys is None`. -/
def default_expected_keys : List String :=
  ["resumo_executivo", "por_sistemas", "estratificacao_geral",
   "recomendacoes", "medicacoes", "monitorizacao"]

/-- Code-fence stripping: the text (already `.strip()`-ed, hence with no
trailing newline) is split into lines; with at least 3 lines whose first
and last start with a fence, the interior is rejoined and stripped. -/
def stripFences (text : String) : String :=
  if pyStartsWith text "```" then
    let lines := splitLines text
    if lines.length ≥ 3 ∧ pyStartsWith (lines.headD "") "```"
        ∧ pyStartsWith (pyStrip (lines.getLastD "")) "```" then
      pyStrip (String.intercalate "\n" (lines.drop 1).dropLast)
    else text
  else text

/-- `text = (text or "").strip()` followed by fence stripping. -/
def preprocess (text : String) : String := stripFences (pyStrip text)

def findIdxChar (c : Char) (cs : List Char) : Option Nat :=
  cs.findIdx? (fun d => d = c)

/-- Index of the last occurrence (`str.rfind`). -/
def rfindIdxChar (c : Char) (cs : List Char) : Option Nat :=
  match cs.reverse.findIdx? (fun d => d = c) with
  | some i => some (cs.length - 1 - i)
  | none => none

/-- `l = text.find("{"); r = text.rfind("}")`; the slice `text[l:r+1]`
when `l != -1 and r != -1 and r > l`. -/
def braceFrag (text : String) : Option String :=
  let cs := text.toList
  match findIdxChar lbraceC cs, rfindIdxChar rbraceC cs with
  | some l, some r => if l < r then some (String.mk ((cs.drop l).take (r + 1 - l))) else none
  | _, _ => none

/-- The three ordered parse attempts of `_parse_response_text`, collapsed
to their only observable: the first stage that yields a dict (each success
path applies the identical normalization afterwards). -/
def parse_stages (text : String) : Option JObj :=
  match jsonLoadsDict text with
  | some d => some d
  | none =>
    match (match braceFrag text with
           | some frag => jsonLoadsDict frag
           | none => none) with
    | some d => some d
    | none => literalEvalDict text

/-- The full default structure synthesized when there are no defaults and
no expected keys at all. -/
def full_default_structure : JObj :=
  [("resumo_executivo", .str ""), ("por_sistemas", porSistemasDefault),
   ("estratificacao_geral", .str ""), ("recomendacoes", .arr []),
   ("medicacoes", medicacoesDefault), ("monitorizacao", .arr [])]

/-- `_parse_response_text`. -/
def parse_response_text (text : String) (expectedKeys : Option (List String))
    (defaults : Option JObj) : JObj :=
  let t := preprocess text
  let ek := expectedKeys.getD default_expected_keys
  match parse_stages t with
  | some data => ensure_expected (normalize_top_keys data) ek
  | none =>
    let base := defaults.getD []
    let base := ensure_expected base ek
    let base := if base.isEmpty then full_default_structure else base
    alSetdefault base "_raw_text" (.str t)

/-! ### Score engine: `rcri_score`, `ariscat_score`, `akics_score`
(`src/scores.py`) and `calculate_rcri` (`src/risk_scores.py`).

The Python functions return a `ScoreOutput` whose `result` dict has a
fixed key set; each is modelled as a record with one field per dict key
(static interpretation/reference strings that no claim mentions are
omitted).  Percentages are modelled as rationals. -/

structure RCRIOutput where
  score : Nat
  rclass : String
  risk_percent : ℚ
  risk_category : String
  d_high_risk_surgery : Nat
  d_ischemic_heart_disease : Nat
  d_congestive_heart_failure : Nat
  d_cerebrovascular_disease : Nat
  d_insulin_treated_diabetes : Nat
  d_creatinine_gt_2mg_dl : Nat
deriving DecidableEq

/-- `rcri_score` from `src/scores.py`. -/
def rcri_score (high_risk_surgery ischemic_heart_disease congestive_heart_failure
    cerebrovascular_disease insulin_treated_diabetes creatinine_gt_2mg_dl : Bool) :
    RCRIOutput :=
  let d1 : Nat := if high_risk_surgery then 1 else 0
  let d2 : Nat := if ischemic_heart_disease then 1 else 0
  let d3 : Nat := if congestive_heart_failure then 1 else 0
  let d4 : Nat := if cerebrovascular_disease then 1 else 0
  let d5 : Nat := if insulin_treated_diabetes then 1 else 0
  let d6 : Nat := if creatinine_gt_2mg_dl then 1 else 0
  let score := d1 + d2 + d3 + d4 + d5 + d6
  let cls : String × ℚ × String :=
    if score = 0 then ("Classe I", 2/5, "Baixo")
    else if score = 1 then ("Classe II", 9/10, "Intermediário")
    else if score = 2 then ("Classe III", 7, "Intermediário")
    else ("Classe IV", 11, "Alto")
  { score := score, rclass := cls.1, risk_percent := cls.2.1, risk_category := cls.2.2,
    d_high_risk_surgery := d1, d_ischemic_heart_disease := d2,
    d_congestive_heart_failure := d3, d_cerebrovascular_disease := d4,
    d_insulin_treated_diabetes := d5, d_creatinine_gt_2mg_dl := d6 }

structure RiskScoreResult where
  score : Nat
  risk_category : String
deriving DecidableEq

/-- `calculate_rcri` from `src/risk_scores.py` (its six `RCRI_FACTORS`
keyword flags, each worth 1 point, default `False`). -/
def calculate_rcri (high_risk_surgery history_ischemic_heart_disease
    history_congestive_heart_failure history_cerebrovascular_disease
    insulin_therapy_diabetes preoperative_creatinine_gt_2mg_dl : Bool) :
    RiskScoreResult :=
  let score : Nat :=
    (if high_risk_surgery then 1 else 0) + (if history_ischemic_heart_disease then 1 else 0)
    + (if history_congestive_heart_failure then 1 else 0)
    + (if history_cerebrovascular_disease then 1 else 0)
    + (if insulin_therapy_diabetes then 1 else 0)
    + (if preoperative_creatinine_gt_2mg_dl then 1 else 0)
  { score := score,
    risk_category :=
      if score = 0 then "Baixo"
      else if score = 1 ∨ score = 2 then "Intermediário"
      else "Alto" }

structure AriscatOutput where
  score : Nat
  risk_category : String
  probability_cpp_percent : ℚ
  d_age_51_80 : Nat
  d_age_gt_80 : Nat
  d_spo2_le_95 : Nat
  d_resp_infection_last_month : Nat
  d_anemia_hb_le_10 : Nat
  d_incision : Nat
  d_duration : Nat
  d_emergency_surgery : Nat
deriving DecidableEq

/-- `ariscat_score` from `src/scores.py`. -/
def ariscat_score (age_51_80 age_gt_80 spo2_le_95 resp_infection_last_month
    anemia_hb_le_10 incision_abd_upper incision_intrathoracic
    duration_2_to_3h duration_gt_3h emergency_surgery : Bool) : AriscatOutput :=
  let dAge5180 : Nat := if age_51_80 ∧ ¬age_gt_80 then 3 else 0
  let dAgeGt80 : Nat := if age_gt_80 then 16 else 0
  let dSpo2 : Nat := if spo2_le_95 then 8 else 0
  let dInf : Nat := if resp_infection_last_month then 17 else 0
  let dAnemia : Nat := if anemia_hb_le_10 then 11 else 0
  let inc0 : Nat := 0
  let inc1 : Nat := if incision_intrathoracic then max inc0 24 else inc0
  let inc2 : Nat := if incision_abd_upper then max inc1 15 else inc1
  let dur : Nat := if duration_gt_3h then max 0 23 else if duration_2_to_3h then max 0 16 else 0
  let dEmerg : Nat := if emergency_surgery then 8 else 0
  let total := dAge5180 + dAgeGt80 + dSpo2 + dInf + dAnemia + inc2 + dur + dEmerg
  let cat : String × ℚ :=
    if total < 26 then ("Baixo", 16/10)
    else if total < 45 then ("Intermediário", 133/10)
    else ("Alto", 421/10)
  { score := total, risk_category := cat.1, probability_cpp_percent := cat.2,
    d_age_51_80 := dAge5180, d_age_gt_80 := dAgeGt80, d_spo2_le_95 := dSpo2,
    d_resp_infection_last_month := dInf, d_anemia_hb_le_10 := dAnemia,
    d_incision := inc2, d_duration := dur, d_emergency_surgery := dEmerg }

structure AkicsOutput where
  pontuacao_total : ℚ
  categoria_risco : String
  probabilidade_percentual : ℚ
deriving DecidableEq

/-- Membership test of `akics_score`'s `tipo_cirurgia` validation set. -/
def validTipo (t : String) : Bool :=
  t == "coronariana" || t == "valvar" || t == "combinada" || t == "nao_cardiaca"

/-- The inner complexity check: raises when a complexity was given whose
lower-cased form is outside the allowed set. -/
def badComplexity (c : Option String) : Bool :=
  match c with
  | some s => !(pyLower s == "baixa" || pyLower s == "media" || pyLower s == "alta")
  | none => false

def Except.isErr {ε α : Type} : Except ε α → Bool
  | .error _ => true
  | .ok _ => false

/-- The validation block of `akics_score`, run in source order before any
point accumulation: the message of the first failing check, if any. -/
def akics_valid (idade : Int) (creatinina_mg_dl : ℚ) (tipo_cirurgia : String)
    (nao_cardiaca_complexidade : Option String) : Option String :=
  if idade < 0 ∨ idade > 120 then some "Idade inválida"
  else if creatinina_mg_dl < 0 ∨ creatinina_mg_dl > 20 then
    some "Creatinina fora de faixa plausível"
  else if !validTipo (pyStrip (pyLower tipo_cirurgia)) then
    some "tipo_cirurgia inválido"
  else if pyStrip (pyLower tipo_cirurgia) = "nao_cardiaca"
      ∧ badComplexity nao_cardiaca_complexidade then
    some "nao_cardiaca_complexidade inválida"
  else none

/-- `akics_score` from `src/scores.py`: the validation block first (a
`ValueError` is modelled as `.error`), then the point accumulation.
The code stores `round(points, 2)` for display but stratifies on the raw
`points`; with an integer age the total is always a multiple of 1/10, so
the rounding is the identity and the raw total is stored here. -/
def akics_score (idade : Int) (sexo_feminino insuficiencia_cardiaca hipertensao
    emergencia : Bool) (tipo_cirurgia : String) (creatinina_mg_dl : ℚ)
    (nao_cardiaca_complexidade : Option String) : Except String AkicsOutput :=
  match akics_valid idade creatinina_mg_dl tipo_cirurgia nao_cardiaca_complexidade with
  | some msg => .error msg
  | none =>
      let tipo := pyStrip (pyLower tipo_cirurgia)
      let points : ℚ := (idade : ℚ) / 10
        + (if sexo_feminino then 1 else 0)
        + (if insuficiencia_cardiaca then 1 else 0)
        + (if hipertensao then 1 else 0)
        + (if emergencia then 2 else 0)
        + (if tipo = "valvar" then 1 else 0)
        + (if tipo = "combinada" then 2 else 0)
        + (if 12/10 ≤ creatinina_mg_dl ∧ creatinina_mg_dl ≤ 2 then 2
           else if creatinina_mg_dl > 2 then 5 else 0)
        + (if tipo = "nao_cardiaca" then
             (let comp : String :=
                match nao_cardiaca_complexidade with
                | some s => if s ≠ "" then pyLower s else "baixa"
                | none => "baixa"
              if comp = "alta" then 1 else if comp = "media" then 1/2 else 0)
           else 0)
      let cat : String × ℚ :=
        if points ≤ 2 then ("Muito baixo", 2)
        else if points ≤ 5 then ("Baixo", 8)
        else if points ≤ 8 then ("Moderado", 18)
        else if points ≤ 13 then ("Alto", 35)
        else ("Muito alto", 50)
      .ok { pontuacao_total := points, categoria_risco := cat.1,
            probabilidade_percentual := cat.2 }

/-! ### `_run_gemini` (`src/ai_analysis.py`)

The remote SDK call is modelled by a list of per-attempt outcomes: each
`generate_content` call either raises (timeouts included) or returns a
response object.  Response objects carry an optional direct `text` field
and optionally a `candidates -> content -> parts -> text` nesting; the
attribute-vs-dict duality in the Python collapses to a single optional
field.  The inner extraction loop never raises (its `try` only guards
attribute access, modelled away by `Option`). -/

structure GenPart where
  text : Option String

structure GenContent where
  parts : Option (List GenPart)

structure GenCandidate where
  content : Option GenContent

structure GenResponse where
  text : Option String
  candidates : Option (List GenCandidate)

inductive AttemptOutcome where
  | err (msg : String) : AttemptOutcome
  | ok (resp : GenResponse) : AttemptOutcome

/-- Python truthiness of an optional string (`if not text: ...`). -/
def optTruthy : Option String → Bool
  | none => false
  | some s => s != ""

/-- Text extracted from one candidate (`content.parts[].text`, keeping
truthy fragments, joined by newlines); `none` when this candidate is
skipped. -/
def candText (c : GenCandidate) : Option String :=
  match c.content with
  | none => none
  | some ct =>
    match ct.parts with
    | none => none
    | some parts =>
      if parts.isEmpty then none
      else
        let texts := parts.filterMap (fun p => if optTruthy p.text then p.text else none)
        if texts.isEmpty then none else some (String.intercalate "\n" texts)

/-- The candidate loop: first candidate with extractable text wins
(`break`). -/
def firstCandText : List GenCandidate → Option String
  | [] => none
  | c :: rest =>
    match candText c with
    | some t => some t
    | none => firstCandText rest

/-- Per-response text extraction of `_run_gemini`: the direct `resp.text`
when truthy, else the candidate walk (skipped when `candidates` is absent
or empty). -/
def extract_text (r : GenResponse) : Option String :=
  if optTruthy r.text then r.text
  else
    match r.candidates with
    | some cands => if cands.isEmpty then none else firstCandText cands
    | none => none

/-- Usable text of one attempt: what makes `if text: return text` fire. -/
def usableOf : AttemptOutcome → Option String
  | .err _ => none
  | .ok r => if optTruthy (extract_text r) then extract_text r else none

/-- The retry loop of `_run_gemini`, threading `last_text`
(`last_text = text or last_text`; exceptions are caught and the loop
continues). -/
def runLoop : List AttemptOutcome → Option String → Option String
  | [], lastText => lastText
  | o :: rest, lastText =>
    match o with
    | .err _ => runLoop rest lastText
    | .ok r =>
      let text := extract_text r
      if optTruthy text then text
      else runLoop rest (if optTruthy text then text else lastText)

/-- `_run_gemini`: `modelAvailable` models `create_gemini_model(cfg)
is not None`; `attempts = max(1, cfg.retry_max_attempts)` bounds how many
outcomes are consumed; the final `return last_text` is reached when no
attempt produced truthy text. -/
def run_gemini (modelAvailable : Bool) (retry_max_attempts : Int)
    (outcomes : List AttemptOutcome) : Option String :=
  if modelAvailable = false then none
  else runLoop (outcomes.take (max 1 retry_max_attempts).toNat) none

/-! ### Prompt builders, payload hashing, cache, and the analysis entry
points (`src/ai_analysis.py`). -/

/-- `.get(k)` on a value known to be a dict in every reachable call
(Python `None` is modelled as `.null`). -/
def dictGet (v : JVal) (k : String) : JVal :=
  match v with
  | .obj fs => (alGet fs k).getD .null
  | _ => .null

/-- `.get(k, default)` likewise. -/
def dictGetD (v : JVal) (k : String) (d : JVal) : JVal :=
  match v with
  | .obj fs => (alGet fs k).getD d
  | _ => d

/-- `_build_prompt_general` (locals the code computes but never
interpolates are omitted). -/
def build_prompt_general (payload : JObj) : String :=
  let patient := (alGet payload "patient").getD (.obj [])
  let scores := (alGet payload "scores").getD (.obj [])
  let surgical := dictGetD patient "surgical" (.obj [])
  "Você é um anestesiologista especialista em avaliação pré-operatória.\n"
  ++ "Analise este paciente baseando-se nos escores validados calculados e forneça uma avaliação de risco perioperatório estruturada.\n\n"
  ++ "INSTRUÇÕES CRÍTICAS: NÃO escreva preâmbulos, saudações ou confirmações (ex.: "
  ++ pyQuote "Com certeza..." ++ "). "
  ++ "Responda APENAS com um JSON válido exatamente no formato solicitado, iniciando pelo caractere \x7b e terminando em \x7d.\n\n"
  ++ "DADOS DO PACIENTE: " ++ dumpsV patient ++ "\n\n"
  ++ "ESCORES CALCULADOS:\n"
  ++ "ASA Physical Status: " ++ dumpsV (dictGet scores "asa") ++ "\n"
  ++ "NSQIP Risk Calculator: " ++ dumpsV (dictGet scores "nsqip") ++ "\n"
  ++ "RCRI (Revised Cardiac Risk Index): " ++ dumpsV (dictGet scores "rcri") ++ "\n"
  ++ "ARISCAT: " ++ dumpsV (dictGet scores "ariscat") ++ "\n"
  ++ "AKICS (se aplicável): " ++ dumpsV (dictGet scores "akics") ++ "\n"
  ++ "PRE-DELIRIC: " ++ dumpsV (dictGet scores "pre_deliric") ++ "\n\n"
  ++ "CIRURGIA: " ++ dumpsV surgical ++ "\n\n"
  ++ "Forneça resposta em JSON ESTRITO no formato abaixo, baseada EXCLUSIVAMENTE nos escores validados:\n"
  ++ "\n\x7b\n  \"resumo_executivo\": \"...\",\n  \"por_sistemas\": \x7b\n    \"cardiovascular\": [\"...\"],\n    \"pulmonar\": [\"...\"],\n    \"renal\": [\"...\"],\n    \"delirium\": [\"...\"]\n  \x7d,\n  \"estratificacao_geral\": \"...\",\n  \"recomendacoes\": [\"...\"],\n  \"medicacoes\": \x7b\"suspender\": [\"...\"], \"manter\": [\"...\"], \"ajustar\": [\"...\"]\x7d,\n  \"monitorizacao\": [\"...\"]\n\x7d\n"
  ++ "Use linguagem técnica adequada para anestesiologistas e cite guidelines (ACC/AHA, ESC/ESA, ASA, ERAS, ACS-NSQIP) quando relevante."

/-- `_build_prompt_medications`. -/
def build_prompt_medications (payload : JObj) : String :=
  let patient := (alGet payload "patient").getD (.obj [])
  let scores := (alGet payload "scores").getD (.obj [])
  let surgical := dictGetD patient "surgical" (.obj [])
  let meds := dictGetD patient "medications" (.obj [])
  "Baseado nos escores de risco calculados e dados clínicos, analise as medicações em uso seguindo guidelines baseadas em evidência.\n\n"
  ++ "INSTRUÇÕES CRÍTICAS: NÃO escreva preâmbulos, saudações ou confirmações. "
  ++ "Responda APENAS com um JSON válido exatamente no formato solicitado, iniciando em \x7b e terminando em \x7d.\n\n"
  ++ "ESCORES DE RISCO:\n"
  ++ "RCRI: " ++ dumpsV (dictGet scores "rcri") ++ "\n"
  ++ "ARISCAT: " ++ dumpsV (dictGet scores "ariscat") ++ "\n"
  ++ "AKICS: " ++ dumpsV (dictGet scores "akics") ++ "\n"
  ++ "ASA: " ++ dumpsV (dictGet scores "asa") ++ "\n\n"
  ++ "MEDICAÇÕES ATUAIS: " ++ dumpsV meds ++ "\n"
  ++ "TIPO DE CIRURGIA: " ++ dumpsV surgical ++ "\n\n"
  ++ "Responda em JSON ESTRITO:\n"
  ++ "\n\x7b\n  \"suspender\": [\"medicação e antecedência (com justificativa)\"],\n  \"manter\": [\"medicação (com justificativa)\"],\n  \"ajustar\": [\"medicação e ajuste (baseado em função renal/cardíaca)\"],\n  \"profilaxias\": [\"profilaxias específicas baseadas nos escores\"],\n  \"bridge\": [\"cenários de terapia ponte e como conduzir\"]\n\x7d\n"
  ++ "Referencie guidelines (ACC/AHA, ESC/ESA, ASA) quando aplicável."

/-- `_build_prompt_scores_interpretation`. -/
def build_prompt_scores_interpretation (payload : JObj) : String :=
  let scores := (alGet payload "scores").getD (.obj [])
  "Interprete os resultados dos escores de forma integrada e clinicamente relevante. Responda em JSON ESTRITO.\n"
  ++ "INSTRUÇÕES CRÍTICAS: Não escreva preâmbulos/saudações/" ++ pyQuote "com certeza"
  ++ "; responda apenas com um JSON válido (inicie em \x7b e termine em \x7d).\n"
  ++ "Resultados:\n"
  ++ "ASA: " ++ dumpsV (dictGet scores "asa") ++ "\n"
  ++ "NSQIP: " ++ dumpsV (dictGet scores "nsqip") ++ "\n"
  ++ "RCRI: " ++ dumpsV (dictGet scores "rcri") ++ "\n"
  ++ "ARISCAT: " ++ dumpsV (dictGet scores "ariscat") ++ "\n"
  ++ "AKICS: " ++ dumpsV (dictGet scores "akics") ++ "\n"
  ++ "PRE-DELIRIC: " ++ dumpsV (dictGet scores "pre_deliric") ++ "\n\n"
  ++ "Formato:\n"
  ++ "\n\x7b\n  \"concordancia\": [\"onde os escores convergem\"],\n  \"divergencia\": [\"onde divergem e por quê\"],\n  \"relevancia\": \"qual escore é mais relevante\",\n  \"limitacoes\": [\"limitações dos escores neste caso\"],\n  \"risco_global\": \"síntese do risco global\",\n  \"pontos_atencao\": [\"itens críticos\"],\n  \"otimizacao_preop\": [\"ações de otimização\"]\n\x7d\n"
  ++ "Mantenha linguagem técnica apropriada para anestesiologistas."

/-- `_hash_patient_payload`: the namespace-qualified, key-sorted JSON
serialization of the payload.  The code applies SHA-256 to this string;
SHA-256 is a fixed deterministic digest, so composing it changes no
property proved here (every claim depends only on equal payloads yielding
equal keys), and the digest step is omitted. -/
def hash_patient_payload (payload : JObj) (ns : String) : String :=
  ns ++ "::" ++ dumpsV (sortJ (.obj payload))

/-- `AIAnalysisCache._cache`: a plain dict from hash key to stored result. -/
abbrev CacheState := List (String × JObj)

/-- `cached = _cache.get(key); if cached:` — truthiness of the lookup. -/
def cacheTruthy : Option JObj → Bool
  | none => false
  | some d => !d.isEmpty

/-- `cached.get("_raw", "")` (the cache always stores a string there). -/
def rawOf (cached : JObj) : String :=
  match alGet cached "_raw" with
  | some (.str s) => s
  | _ => ""

/-- Result of one analysis call: the returned dict and raw text, the cache
afterwards, and how many times `_run_gemini` was invoked during the call. -/
structure AnalysisCall where
  result : JObj
  raw : String
  cache : CacheState
  geminiCalls : Nat

def expected_general : List String :=
  ["resumo_executivo", "por_sistemas", "estratificacao_geral",
   "recomendacoes", "medicacoes", "monitorizacao"]

def defaults_general : JObj :=
  [("por_sistemas", porSistemasDefault), ("medicacoes", medicacoesDefault)]

def fallback_general : JObj :=
  [("resumo_executivo", .str "IA indisponível. Verifique a GOOGLE_API_KEY e conectividade."),
   ("por_sistemas", porSistemasDefault),
   ("estratificacao_geral", .str ""),
   ("recomendacoes", .arr []),
   ("medicacoes", medicacoesDefault),
   ("monitorizacao", .arr [])]

/-- `analyze_general`.  `gem` gives the value `_run_gemini` returns for
this call (the remote behaviour); `geminiCalls` counts its invocations. -/
def analyze_general (payload : JObj) (gem : String → Option String)
    (c : CacheState) : AnalysisCall :=
  let key := hash_patient_payload payload "general"
  let cached? := alGet c key
  if cacheTruthy cached? then
    let cached := cached?.getD []
    { result := cached, raw := rawOf cached, cache := c, geminiCalls := 0 }
  else
    let prompt := build_prompt_general payload
    let text? := gem prompt
    if !optTruthy text? then
      { result := fallback_general, raw := "",
        cache := alSet c key (alSet fallback_general "_raw" (.str "")),
        geminiCalls := 1 }
    else
      let text := text?.getD ""
      let parsed := parse_response_text text (some expected_general) (some defaults_general)
      { result := parsed, raw := text,
        cache := alSet c key (alSet parsed "_raw" (.str text)),
        geminiCalls := 1 }

def expected_medications : List String :=
  ["suspender", "manter", "ajustar", "profilaxias", "bridge"]

def defaults_medications : JObj :=
  [("suspender", .arr []), ("manter", .arr []), ("ajustar", .arr []),
   ("profilaxias", .arr []), ("bridge", .arr [])]

/-- The local `alias` table of `analyze_medications` (distinct from
`m_alias` in `_normalize_top_keys`). -/
def medsAliasLocal : List (String × String) :=
  [("suspender", "suspender"), ("hold", "suspender"),
   ("manter", "manter"), ("continue", "manter"),
   ("ajustar", "ajustar"), ("adjust", "ajustar")]

/-- The medication normalization inlined in `analyze_medications`: only
the three canonical buckets are ever written (`if kk in meds`). -/
def meds_from_parsed (p : Option JVal) : JObj :=
  let meds0 : JObj := [("suspender", .arr []), ("manter", .arr []), ("ajustar", .arr [])]
  match p with
  | some (.obj fields) =>
    fields.foldl (fun m kv =>
      let kk := (alGet medsAliasLocal kv.1).getD kv.1
      if alContains m kk then
        match coerceListVal kv.2 with
        | some w => alSet m kk w
        | none => m
      else m) meds0
  | _ => meds0

/-- `analyze_medications`. -/
def analyze_medications (payload : JObj) (gem : String → Option String)
    (c : CacheState) : AnalysisCall :=
  let key := hash_patient_payload payload "medications"
  let cached? := alGet c key
  if cacheTruthy cached? then
    let cached := cached?.getD []
    { result := cached, raw := rawOf cached, cache := c, geminiCalls := 0 }
  else
    let prompt := build_prompt_medications payload
    let text? := gem prompt
    if !optTruthy text? then
      { result := defaults_medications, raw := "",
        cache := alSet c key (alSet defaults_medications "_raw" (.str "")),
        geminiCalls := 1 }
    else
      let text := text?.getD ""
      let parsedAny : Option JVal :=
        match jsonLoads text with
        | some v => some v
        | none => literalEval text
      let meds := meds_from_parsed parsedAny
      { result := meds, raw := text,
        cache := alSet c key (alSet meds "_raw" (.str text)),
        geminiCalls := 1 }

def expected_scores_interpretation : List String :=
  ["concordancia", "divergencia", "relevancia", "limitacoes",
   "risco_global", "pontos_atencao", "otimizacao_preop"]

def defaults_scores_interpretation : JObj :=
  [("concordancia", .arr []), ("divergencia", .arr []), ("relevancia", .str ""),
   ("limitacoes", .arr []), ("risco_global", .str ""), ("pontos_atencao", .arr []),
   ("otimizacao_preop", .arr [])]

/-- `analyze_scores_interpretation`. -/
def analyze_scores_interpretation (payload : JObj) (gem : String → Option String)
    (c : CacheState) : AnalysisCall :=
  let key := hash_patient_payload payload "scores_interpretation"
  let cached? := alGet c key
  if cacheTruthy cached? then
    let cached := cached?.getD []
    { result := cached, raw := rawOf cached, cache := c, geminiCalls := 0 }
  else
    let prompt := build_prompt_scores_interpretation payload
    let text? := gem prompt
    if !optTruthy text? then
      { result := defaults_scores_interpretation, raw := "",
        cache := alSet c key (alSet defaults_scores_interpretation "_raw" (.str "")),
        geminiCalls := 1 }
    else
      let text := text?.getD ""
      let parsed := parse_response_text text (some expected_scores_interpretation)
        (some defaults_scores_interpretation)
      { result := parsed, raw := text,
        cache := alSet c key (alSet parsed "_raw" (.str text)),
        geminiCalls := 1 }

/-- The medication sub-object of a normalized result (`norm["medicacoes"]`,
which `_normalize_top_keys` always sets to a dict). -/
def medsOfNormalized (data : JObj) : JObj :=
  match alGet (normalize_top_keys data) "medicacoes" with
  | some (.obj fs) => fs
  | _ => []

/-- A predicate holds of the payload of an optional string (vacuously true
for `none`). -/
def optionHolds (p : String → Bool) : Option String → Bool
  | none => true
  | some t => p t

/-! ### Lemmas about the dict operations -/

theorem alGet_alSet_self {α : Type} (o : List (String × α)) (k : String) (v : α) :
    alGet (alSet o k v) k = some v := by
  induction o with
  | nil => simp [alSet, alGet]
  | cons kv rest ih =>
    obtain ⟨k', v'⟩ := kv
    by_cases h : k' = k
    · simp [alSet, h, alGet]
    · simp [alSet, h, alGet, ih]

theorem alGet_alSet_ne {α : Type} (o : List (String × α)) {k' k : String} (v : α)
    (h : k' ≠ k) : alGet (alSet o k' v) k = alGet o k := by
  induction o with
  | nil => simp [alSet, alGet, h]
  | cons kv rest ih =>
    obtain ⟨k0, v0⟩ := kv
    by_cases h0 : k0 = k'
    · simp [alSet, h0, alGet, h]
    · by_cases h1 : k0 = k
      · simp [alSet, h0, alGet, h1, Ne.symm h]
      · simp [alSet, h0, alGet, h1, ih]

theorem alSet_isEmpty {α : Type} (o : List (String × α)) (k : String) (v : α) :
    (alSet o k v).isEmpty = false := by
  cases o with
  | nil => simp [alSet]
  | cons kv rest =>
    obtain ⟨k', v'⟩ := kv
    by_cases h : k' = k
    · simp [alSet, h]
    · simp [alSet, h]

theorem alContains_alSet_self {α : Type} (o : List (String × α)) (k : String) (v : α) :
    alContains (alSet o k v) k = true := by
  simp [alContains, alGet_alSet_self]

theorem alContains_alSet {α : Type} (o : List (String × α)) {k : String} (k' : String)
    (v : α) (h : alContains o k = true) : alContains (alSet o k' v) k = true := by
  by_cases he : k' = k
  · subst he; exact alContains_alSet_self o k' v
  · simpa [alContains, alGet_alSet_ne o v he] using h

theorem alContains_alSetdefault_self {α : Type} (o : List (String × α)) (k : String)
    (v : α) : alContains (alSetdefault o k v) k = true := by
  unfold alSetdefault
  by_cases h : (alGet o k).isSome
  · simp [h, alContains]
  · simp [h, alContains_alSet_self]

theorem alContains_alSetdefault {α : Type} (o : List (String × α)) {k : String}
    (k' : String) (v : α) (h : alContains o k = true) :
    alContains (alSetdefault o k' v) k = true := by
  unfold alSetdefault
  by_cases h' : (alGet o k').isSome
  · simpa [h']
  · simp only [h', if_false]
    exact alContains_alSet o k' v h

theorem alGet_alSetdefault_of_none {α : Type} (o : List (String × α)) (k : String)
    (v : α) (h : alGet o k = none) : alGet (alSetdefault o k v) k = some v := by
  unfold alSetdefault
  simp [h, alGet_alSet_self]

theorem alGet_alSetdefault_ne {α : Type} (o : List (String × α)) {k' k : String}
    (v : α) (h : k' ≠ k) : alGet (alSetdefault o k' v) k = alGet o k := by
  unfold alSetdefault
  by_cases h' : (alGet o k').isSome
  · simp [h']
  · simp [h', alGet_alSet_ne o v h]

theorem alContains_isEmpty_false {α : Type} (o : List (String × α)) (k : String)
    (h : alContains o k = true) : o.isEmpty = false := by
  cases o with
  | nil => simp [alContains, alGet] at h
  | cons kv rest => simp

/-- All values of a dict are Python lists. -/
def allArr (o : JObj) : Bool := o.all (fun kv => kv.2.isArr)

theorem allArr_alSet (o : JObj) (k : String) (v : JVal) (h : allArr o = true)
    (hv : v.isArr = true) : allArr (alSet o k v) = true := by
  induction o with
  | nil => simp [alSet, allArr, hv]
  | cons kv rest ih =>
    obtain ⟨k', v'⟩ := kv
    simp only [allArr, List.all_cons, Bool.and_eq_true] at h
    by_cases he : k' = k
    · simp only [alSet, if_pos he, allArr, List.all_cons, Bool.and_eq_true]
      exact ⟨hv, h.2⟩
    · simp only [alSet, if_neg he, allArr, List.all_cons, Bool.and_eq_true]
      exact ⟨h.1, ih h.2⟩

theorem allArr_alSetdefault (o : JObj) (k : String) (xs : List JVal)
    (h : allArr o = true) : allArr (alSetdefault o k (.arr xs)) = true := by
  unfold alSetdefault
  by_cases h' : (alGet o k).isSome
  · simpa [h']
  · simp only [h', if_false]
    exact allArr_alSet o k _ h rfl

theorem alKeys_alSet_of_contains (o : JObj) {k : String} (v : JVal)
    (h : alContains o k = true) : alKeys (alSet o k v) = alKeys o := by
  induction o with
  | nil => simp [alContains, alGet] at h
  | cons kv rest ih =>
    obtain ⟨k', v'⟩ := kv
    by_cases he : k' = k
    · simp [alSet, he, alKeys]
    · have hr : alContains rest k = true := by
        simpa [alContains, alGet, he] using h
      simp [alSet, he, alKeys]
      simpa [alKeys] using ih hr

/-! ### Lemmas about `ensure_expected` -/

theorem alContains_ensure_expected_mono (eks : List String) (o : JObj) (k : String)
    (h : alContains o k = true) : alContains (ensure_expected o eks) k = true := by
  induction eks generalizing o with
  | nil => simpa [ensure_expected] using h
  | cons e rest ih =>
    simp only [ensure_expected, List.foldl] at *
    apply ih
    by_cases hc : alContains o e = true
    · rw [if_pos hc]; exact h
    · rw [if_neg hc]
      exact alContains_alSet o e _ h

theorem alContains_ensure_expected_of_mem (eks : List String) (o : JObj) (k : String)
    (h : k ∈ eks) : alContains (ensure_expected o eks) k = true := by
  induction eks generalizing o with
  | nil => cases h
  | cons e rest ih =>
    rcases List.mem_cons.mp h with he | hr
    · subst he
      simp only [ensure_expected, List.foldl]
      by_cases hc : alContains o k = true
      · rw [if_pos hc]
        exact alContains_ensure_expected_mono rest o k hc
      · rw [if_neg hc]
        exact alContains_ensure_expected_mono rest _ k (alContains_alSet_self o k _)
    · simp only [ensure_expected, List.foldl]
      exact ih _ hr

theorem alGet_ensure_expected_of_not_mem (eks : List String) (o : JObj) (k : String)
    (h : ¬ k ∈ eks) : alGet (ensure_expected o eks) k = alGet o k := by
  induction eks generalizing o with
  | nil => simp [ensure_expected]
  | cons e rest ih =>
    have hne : e ≠ k := fun hek => h (by simp [hek])
    have hrest : ¬ k ∈ rest := fun hk => h (by simp [hk])
    simp only [ensure_expected, List.foldl]
    by_cases hc : alContains o e = true
    · rw [if_pos hc]
      exact ih o hrest
    · rw [if_neg hc]
      have := ih (alSet o e (perKeyDefault e)) hrest
      rw [show ensure_expected (alSet o e (perKeyDefault e)) rest
            = List.foldl (fun o k => if alContains o k then o
                else alSet o k (perKeyDefault k)) (alSet o e (perKeyDefault e)) rest from rfl] at this
      rw [this]
      exact alGet_alSet_ne o _ hne

/-! ### Invariants of the medication normalizations -/

theorem coerceListVal_isArr (v w : JVal) (h : coerceListVal v = some w) :
    w.isArr = true := by
  cases v with
  | arr xs =>
    simp only [coerceListVal] at h
    injection h with h2
    subst h2
    rfl
  | null =>
    simp only [coerceListVal] at h
    split at h
    · injection h with h2; subst h2; rfl
    · exact Option.noConfusion h
  | bool b =>
    simp only [coerceListVal] at h
    split at h
    · injection h with h2; subst h2; rfl
    · exact Option.noConfusion h
  | num n =>
    simp only [coerceListVal] at h
    split at h
    · injection h with h2; subst h2; rfl
    · exact Option.noConfusion h
  | str s =>
    simp only [coerceListVal] at h
    split at h
    · injection h with h2; subst h2; rfl
    · exact Option.noConfusion h
  | obj fs =>
    simp only [coerceListVal] at h
    split at h
    · injection h with h2; subst h2; rfl
    · exact Option.noConfusion h

/-- Invariant preserved by every iteration of the medication loop of
`_normalize_top_keys`: the three canonical buckets stay present and every
value stays a list. -/
theorem normMedStep_inv (m : JObj) (kv : String × JVal)
    (h : alContains m "suspender" = true ∧ alContains m "manter" = true
      ∧ alContains m "ajustar" = true ∧ allArr m = true) :
    alContains (normMedStep m kv) "suspender" = true
    ∧ alContains (normMedStep m kv) "manter" = true
    ∧ alContains (normMedStep m kv) "ajustar" = true
    ∧ allArr (normMedStep m kv) = true := by
  obtain ⟨h1, h2, h3, h4⟩ := h
  simp only [normMedStep]
  have g1 := alContains_alSetdefault m ((alGet mAlias kv.1).getD kv.1) (.arr []) h1
  have g2 := alContains_alSetdefault m ((alGet mAlias kv.1).getD kv.1) (.arr []) h2
  have g3 := alContains_alSetdefault m ((alGet mAlias kv.1).getD kv.1) (.arr []) h3
  have g4 := allArr_alSetdefault m ((alGet mAlias kv.1).getD kv.1) [] h4
  cases hw : coerceListVal kv.2 with
  | none => exact ⟨g1, g2, g3, g4⟩
  | some w =>
    exact ⟨alContains_alSet _ _ w g1, alContains_alSet _ _ w g2,
      alContains_alSet _ _ w g3,
      allArr_alSet _ _ w g4 (coerceListVal_isArr kv.2 w hw)⟩

theorem normMed_foldl_inv (l : JObj) : ∀ m : JObj,
    (alContains m "suspender" = true ∧ alContains m "manter" = true
      ∧ alContains m "ajustar" = true ∧ allArr m = true) →
    alContains (l.foldl normMedStep m) "suspender" = true
    ∧ alContains (l.foldl normMedStep m) "manter" = true
    ∧ alContains (l.foldl normMedStep m) "ajustar" = true
    ∧ allArr (l.foldl normMedStep m) = true := by
  induction l with
  | nil => exact fun m h => h
  | cons kv rest ih =>
    intro m h
    simpa [List.foldl] using ih (normMedStep m kv) (normMedStep_inv m kv h)

/-- `_normalize_top_keys` always binds `medicacoes` to a dict built by the
medication loop from the canonical three-bucket start. -/
theorem normalize_medicacoes_shape (data : JObj) :
    ∃ fs : JObj, alGet (normalize_top_keys data) "medicacoes"
      = some (.obj (fs.foldl normMedStep medKeysInit)) := by
  simp only [normalize_top_keys]
  rw [alGet_alSetdefault_ne _ _ (by decide), alGet_alSet_self]
  exact ⟨_, rfl⟩

/-- Invariant of the loop inlined in `analyze_medications`: the key list
never changes (guarded by `if kk in meds`) and values stay lists. -/
theorem medsLocal_foldl_inv (l : JObj) : ∀ m : JObj,
    (alKeys m = ["suspender", "manter", "ajustar"] ∧ allArr m = true) →
    alKeys (l.foldl (fun m kv =>
        let kk := (alGet medsAliasLocal kv.1).getD kv.1
        if alContains m kk then
          match coerceListVal kv.2 with
          | some w => alSet m kk w
          | none => m
        else m) m) = ["suspender", "manter", "ajustar"]
    ∧ allArr (l.foldl (fun m kv =>
        let kk := (alGet medsAliasLocal kv.1).getD kv.1
        if alContains m kk then
          match coerceListVal kv.2 with
          | some w => alSet m kk w
          | none => m
        else m) m) = true := by
  induction l with
  | nil => exact fun m h => h
  | cons kv rest ih =>
    intro m h
    obtain ⟨h1, h2⟩ := h
    simp only [List.foldl]
    apply ih
    by_cases hc : alContains m ((alGet medsAliasLocal kv.1).getD kv.1) = true
    · rw [if_pos hc]
      cases hw : coerceListVal kv.2 with
      | none => exact ⟨h1, h2⟩
      | some w =>
        exact ⟨by rw [alKeys_alSet_of_contains m w hc]; exact h1,
          allArr_alSet m _ w h2 (coerceListVal_isArr kv.2 w hw)⟩
    · rw [if_neg hc]
      exact ⟨h1, h2⟩

/-! ### The `_run_gemini` loop -/

theorem usableOf_ne_empty (o : AttemptOutcome) (t : String)
    (h : usableOf o = some t) : (t != "") = true := by
  cases o with
  | err m => exact Option.noConfusion h
  | ok r =>
    simp only [usableOf] at h
    split at h
    · rename_i hc
      rw [h] at hc
      simpa [optTruthy] using hc
    · exact Option.noConfusion h

theorem runLoop_cons (o : AttemptOutcome) (rest : List AttemptOutcome) :
    runLoop (o :: rest) none =
      (match usableOf o with
       | some t => some t
       | none => runLoop rest none) := by
  cases o with
  | err m => rfl
  | ok r =>
    cases hx : optTruthy (extract_text r) with
    | true =>
      cases he : extract_text r with
      | none => rw [he] at hx; simp [optTruthy] at hx
      | some t =>
        rw [he] at hx
        simp [runLoop, usableOf, he, hx]
    | false => simp [runLoop, usableOf, hx]

theorem runLoop_spec (l : List AttemptOutcome) :
    ((runLoop l none).isNone = l.all (fun o => (usableOf o).isNone))
    ∧ optionHolds (fun t => (t != "") && l.any (fun o => usableOf o == some t))
        (runLoop l none) = true := by
  induction l with
  | nil => exact ⟨rfl, rfl⟩
  | cons o rest ih =>
    rw [runLoop_cons]
    cases ho : usableOf o with
    | some t =>
      constructor
      · simp [List.all_cons, ho]
      · simp [optionHolds, List.any_cons, ho, usableOf_ne_empty o t ho]
    | none =>
      constructor
      · simp only [List.all_cons, ho, Option.isNone_none, Bool.true_and]
        exact ih.1
      · have h2 := ih.2
        cases hr : runLoop rest none with
        | none => simp [optionHolds]
        | some t =>
          rw [hr] at h2
          simp only [optionHolds] at h2 ⊢
          simp only [List.any_cons, ho]
          simpa using h2

/-! ### Hit/miss behaviour of the analysis entry points -/

theorem rawOf_alSet_raw (r : JObj) (s : String) :
    rawOf (alSet r "_raw" (.str s)) = s := by
  simp [rawOf, alGet_alSet_self]

theorem analyze_general_hit (payload : JObj) (gem : String → Option String)
    (c : CacheState) (v : JObj)
    (h : alGet c (hash_patient_payload payload "general") = some v)
    (hv : v.isEmpty = false) :
    analyze_general payload gem c = ⟨v, rawOf v, c, 0⟩ := by
  simp [analyze_general, h, cacheTruthy, hv]

theorem analyze_general_miss (payload : JObj) (gem : String → Option String)
    (c : CacheState)
    (h : cacheTruthy (alGet c (hash_patient_payload payload "general")) = false) :
    (analyze_general payload gem c).geminiCalls = 1
    ∧ (analyze_general payload gem c).cache
      = alSet c (hash_patient_payload payload "general")
          (alSet (analyze_general payload gem c).result "_raw"
            (.str (analyze_general payload gem c).raw)) := by
  cases hb : optTruthy (gem (build_prompt_general payload)) <;>
    simp [analyze_general, h, hb]

theorem analyze_general_notext (payload : JObj) (gem : String → Option String)
    (c : CacheState)
    (h : cacheTruthy (alGet c (hash_patient_payload payload "general")) = false)
    (hg : optTruthy (gem (build_prompt_general payload)) = false) :
    analyze_general payload gem c
      = ⟨fallback_general, "",
          alSet c (hash_patient_payload payload "general")
            (alSet fallback_general "_raw" (.str "")), 1⟩ := by
  simp [analyze_general, h, hg]

theorem analyze_medications_hit (payload : JObj) (gem : String → Option String)
    (c : CacheState) (v : JObj)
    (h : alGet c (hash_patient_payload payload "medications") = some v)
    (hv : v.isEmpty = false) :
    analyze_medications payload gem c = ⟨v, rawOf v, c, 0⟩ := by
  simp [analyze_medications, h, cacheTruthy, hv]

theorem analyze_medications_notext (payload : JObj) (gem : String → Option String)
    (c : CacheState)
    (h : cacheTruthy (alGet c (hash_patient_payload payload "medications")) = false)
    (hg : optTruthy (gem (build_prompt_medications payload)) = false) :
    analyze_medications payload gem c
      = ⟨defaults_medications, "",
          alSet c (hash_patient_payload payload "medications")
            (alSet defaults_medications "_raw" (.str "")), 1⟩ := by
  simp [analyze_medications, h, hg]

theorem analyze_scores_interpretation_hit (payload : JObj)
    (gem : String → Option String) (c : CacheState) (v : JObj)
    (h : alGet c (hash_patient_payload payload "scores_interpretation") = some v)
    (hv : v.isEmpty = false) :
    analyze_scores_interpretation payload gem c = ⟨v, rawOf v, c, 0⟩ := by
  simp [analyze_scores_interpretation, h, cacheTruthy, hv]

theorem analyze_scores_interpretation_notext (payload : JObj)
    (gem : String → Option String) (c : CacheState)
    (h : cacheTruthy (alGet c (hash_patient_payload payload "scores_interpretation")) = false)
    (hg : optTruthy (gem (build_prompt_scores_interpretation payload)) = false) :
    analyze_scores_interpretation payload gem c
      = ⟨defaults_scores_interpretation, "",
          alSet c (hash_patient_payload payload "scores_interpretation")
            (alSet defaults_scores_interpretation "_raw" (.str "")), 1⟩ := by
  simp [analyze_scores_interpretation, h, hg]

/-! ### The claims -/

/-- C1 (amended): for every raw-text input and every expected-key set
(including those of the three analysis types), the result of
`_parse_response_text` contains every expected key.  Keys absent after
parsing are backfilled with their contractually typed defaults, but a key
supplied by a successful parse keeps its parsed value, whose type is not
constrained (see the counterexample). -/
theorem claim_C1_keys_always_present :
    ∀ (text : String) (ek? : Option (List String)) (d? : Option JObj),
    (ek?.getD default_expected_keys).all
      (fun k => alContains (parse_response_text text ek? d?) k) = true := by
  intro text ek? d?
  rw [List.all_eq_true]
  intro k hk
  simp only [parse_response_text]
  cases hps : parse_stages (preprocess text) with
  | some data =>
    exact alContains_ensure_expected_of_mem _ _ _ hk
  | none =>
    have hc := alContains_ensure_expected_of_mem (ek?.getD default_expected_keys)
      (d?.getD []) k hk
    have hne := alContains_isEmpty_false _ _ hc
    rw [if_neg (by simp [hne])]
    exact alContains_alSetdefault _ _ _ hc

/-- C1 counterexample: on the raw text `{"recomendacoes": "x"}` the first
parse stage succeeds, and the list-valued key `recomendacoes` comes out
bound to the string `"x"`, not a list; the nested key `por_sistemas` comes
out as an empty mapping, not the canonical sub-schema.  This refutes the
typed-shape part of the claim. -/
theorem claim_C1_counterexample :
    alGet (parse_response_text "\x7b\"recomendacoes\": \"x\"\x7d" none none)
      "recomendacoes" = some (.str "x")
    ∧ (JVal.str "x").isArr = false
    ∧ alGet (parse_response_text "\x7b\"recomendacoes\": \"x\"\x7d" none none)
      "por_sistemas" = some (.obj []) :=
  ⟨rfl, rfl, rfl⟩

/-- C2 (amended): starting from an empty cache, the first `analyze_general`
call invokes `_run_gemini` exactly once and every later call with the same
payload invokes it zero times (at most one remote invocation per payload);
the second call returns the cached object, which is the first call's
result with the raw text added under `"_raw"` (so the two returned
mappings differ by exactly that key — see the counterexample); from the
second call on, the identical cached object is returned with the raw text,
and the cache is left unchanged. -/
theorem claim_C2_cache_idempotence (payload : JObj)
    (gem1 gem2 gem3 : String → Option String) :
    (analyze_general payload gem1 []).geminiCalls = 1
    ∧ (analyze_general payload gem2 (analyze_general payload gem1 []).cache).geminiCalls = 0
    ∧ (analyze_general payload gem2 (analyze_general payload gem1 []).cache).result
        = alSet (analyze_general payload gem1 []).result "_raw"
            (.str (analyze_general payload gem1 []).raw)
    ∧ (analyze_general payload gem2 (analyze_general payload gem1 []).cache).raw
        = (analyze_general payload gem1 []).raw
    ∧ (analyze_general payload gem2 (analyze_general payload gem1 []).cache).cache
        = (analyze_general payload gem1 []).cache
    ∧ (analyze_general payload gem3
        (analyze_general payload gem2 (analyze_general payload gem1 []).cache).cache).result
        = (analyze_general payload gem2 (analyze_general payload gem1 []).cache).result
    ∧ (analyze_general payload gem3
        (analyze_general payload gem2 (analyze_general payload gem1 []).cache).cache).geminiCalls
        = 0 := by
  have h0 : cacheTruthy (alGet ([] : CacheState)
      (hash_patient_payload payload "general")) = false := rfl
  have m1 := analyze_general_miss payload gem1 [] h0
  have hget : alGet (analyze_general payload gem1 []).cache
      (hash_patient_payload payload "general")
      = some (alSet (analyze_general payload gem1 []).result "_raw"
          (.str (analyze_general payload gem1 []).raw)) := by
    rw [m1.2]; exact alGet_alSet_self _ _ _
  have hv := alSet_isEmpty (analyze_general payload gem1 []).result "_raw"
    (.str (analyze_general payload gem1 []).raw)
  have h2 := analyze_general_hit payload gem2 (analyze_general payload gem1 []).cache
    _ hget hv
  have hget3 : alGet (analyze_general payload gem2
        (analyze_general payload gem1 []).cache).cache
      (hash_patient_payload payload "general")
      = some (alSet (analyze_general payload gem1 []).result "_raw"
          (.str (analyze_general payload gem1 []).raw)) := by
    rw [h2]; exact hget
  have h3 := analyze_general_hit payload gem3
    (analyze_general payload gem2 (analyze_general payload gem1 []).cache).cache
    _ hget3 hv
  refine ⟨m1.1, ?_, ?_, ?_, ?_, ?_, ?_⟩
  · rw [h2]
  · rw [h2]
  · rw [h2]
    exact rawOf_alSet_raw _ _
  · rw [h2]
  · rw [h3, h2]
  · rw [h3]

/-- C2 counterexample: with a remote path yielding no text, the first call
returns the fallback mapping without a `"_raw"` key, while the second call
with the identical payload returns the cached mapping, which has the
`"_raw"` key — the two successive calls do not return the identical
object. -/
theorem claim_C2_counterexample :
    alContains (analyze_general [] (fun _ => none) []).result "_raw" = false
    ∧ alContains (analyze_general [] (fun _ => none)
        ((analyze_general [] (fun _ => none) []).cache)).result "_raw" = true :=
  ⟨rfl, rfl⟩

/-- C3 (amended): after `_normalize_top_keys`, the medication sub-object
always contains at least the three canonical keys
suspender/manter/ajustar and every value in it is a list, but an
unrecognized input sub-key survives aliasing and is retained as an extra
key (see the counterexample); the separate normalization inlined in
`analyze_medications` does produce exactly the three keys, each bound to a
list. -/
theorem claim_C3_medication_buckets :
    ∀ (data : JObj) (p : Option JVal),
    (alContains (medsOfNormalized data) "suspender" = true
     ∧ alContains (medsOfNormalized data) "manter" = true
     ∧ alContains (medsOfNormalized data) "ajustar" = true
     ∧ allArr (medsOfNormalized data) = true)
    ∧ (alKeys (meds_from_parsed p) = ["suspender", "manter", "ajustar"]
       ∧ allArr (meds_from_parsed p) = true) := by
  intro data p
  constructor
  · obtain ⟨fs, hfs⟩ := normalize_medicacoes_shape data
    have : medsOfNormalized data = List.foldl normMedStep medKeysInit fs := by
      simp [medsOfNormalized, hfs]
    rw [this]
    exact normMed_foldl_inv fs medKeysInit ⟨rfl, rfl, rfl, rfl⟩
  · cases p with
    | none => exact ⟨rfl, rfl⟩
    | some v =>
      cases v with
      | obj fields =>
        simpa [meds_from_parsed] using
          medsLocal_foldl_inv fields
            [("suspender", .arr []), ("manter", .arr []), ("ajustar", .arr [])]
            ⟨rfl, rfl⟩
      | null => exact ⟨rfl, rfl⟩
      | bool b => exact ⟨rfl, rfl⟩
      | num n => exact ⟨rfl, rfl⟩
      | str s => exact ⟨rfl, rfl⟩
      | arr xs => exact ⟨rfl, rfl⟩

/-- C3 counterexample: normalizing an input whose medication sub-object
carries the unknown key `profilaxias` yields a medication sub-object with
four keys, refuting "no other sub-key is ever present". -/
theorem claim_C3_counterexample :
    alKeys (medsOfNormalized
        [("medicacoes", .obj [("profilaxias", .arr [.str "x"])])])
      = ["suspender", "manter", "ajustar", "profilaxias"] := rfl

/-- C4 (amended): the raw text is preserved under the reserved audit key
`_raw_text` exactly when every parse stage fails (and the key is not
already claimed by the defaults or the expected keys): the stored value is
the whitespace/fence-stripped text.  On a successful parse the audit key
is not attached (see the counterexample). -/
theorem claim_C4_raw_text_on_failure :
    ∀ (text : String) (ek? : Option (List String)) (d? : Option JObj),
    parse_stages (preprocess text) = none →
    alGet (d?.getD []) "_raw_text" = none →
    ¬ "_raw_text" ∈ ek?.getD default_expected_keys →
    alGet (parse_response_text text ek? d?) "_raw_text"
      = some (.str (preprocess text)) := by
  intro text ek? d? hps hd hek
  simp only [parse_response_text, hps]
  have h1 : alGet (ensure_expected (d?.getD []) (ek?.getD default_expected_keys))
      "_raw_text" = none := by
    rw [alGet_ensure_expected_of_not_mem _ _ _ hek]
    exact hd
  by_cases hi : (ensure_expected (d?.getD []) (ek?.getD default_expected_keys)).isEmpty = true
  · rw [if_pos hi]
    exact alGet_alSetdefault_of_none _ _ _ rfl
  · rw [if_neg hi]
    exact alGet_alSetdefault_of_none _ _ _ h1

/-- C4 witness: a refusal sentence with no braces fails every parse stage
and comes back with itself preserved under the audit key. -/
theorem claim_C4_witness :
    alGet (parse_response_text "Desculpe, não posso ajudar com isso." none none)
      "_raw_text" = some (.str "Desculpe, não posso ajudar com isso.") :=
  claim_C4_raw_text_on_failure _ none none rfl rfl (by decide)

/-- C4 counterexample: on the raw text `{}` the first parse stage succeeds
and the canonical result contains no `_raw_text` key, refuting "whether a
parse stage succeeds or all fail". -/
theorem claim_C4_counterexample :
    parse_stages (preprocess "\x7b\x7d") = some []
    ∧ alContains (parse_response_text "\x7b\x7d" none none) "_raw_text" = false :=
  ⟨rfl, rfl⟩

/-- C5: the RCRI score is the sum of exactly six independent 0/1
contributions and lies in [0,6]; the class/percent mapping is
0 → Classe I / 0.4%, 1 → Classe II / 0.9%, 2 → Classe III / 7.0%,
≥3 → Classe IV / 11.0%; the category is Baixo (low) iff score = 0,
Intermediário iff score ∈ {1,2}, Alto (high) iff score ≥ 3 — both for
`rcri_score` in `src/scores.py` and for `calculate_rcri` in
`src/risk_scores.py`, which agree on score and banding. -/
theorem claim_C5_rcri : ∀ b1 b2 b3 b4 b5 b6 : Bool,
    (rcri_score b1 b2 b3 b4 b5 b6).d_high_risk_surgery = (if b1 then 1 else 0)
    ∧ (rcri_score b1 b2 b3 b4 b5 b6).d_ischemic_heart_disease = (if b2 then 1 else 0)
    ∧ (rcri_score b1 b2 b3 b4 b5 b6).d_congestive_heart_failure = (if b3 then 1 else 0)
    ∧ (rcri_score b1 b2 b3 b4 b5 b6).d_cerebrovascular_disease = (if b4 then 1 else 0)
    ∧ (rcri_score b1 b2 b3 b4 b5 b6).d_insulin_treated_diabetes = (if b5 then 1 else 0)
    ∧ (rcri_score b1 b2 b3 b4 b5 b6).d_creatinine_gt_2mg_dl = (if b6 then 1 else 0)
    ∧ (rcri_score b1 b2 b3 b4 b5 b6).score
        = (if b1 then 1 else 0) + (if b2 then 1 else 0) + (if b3 then 1 else 0)
          + (if b4 then 1 else 0) + (if b5 then 1 else 0) + (if b6 then 1 else 0)
    ∧ (rcri_score b1 b2 b3 b4 b5 b6).score ≤ 6
    ∧ ((rcri_score b1 b2 b3 b4 b5 b6).score = 0
        → (rcri_score b1 b2 b3 b4 b5 b6).rclass = "Classe I"
          ∧ (rcri_score b1 b2 b3 b4 b5 b6).risk_percent = 2/5)
    ∧ ((rcri_score b1 b2 b3 b4 b5 b6).score = 1
        → (rcri_score b1 b2 b3 b4 b5 b6).rclass = "Classe II"
          ∧ (rcri_score b1 b2 b3 b4 b5 b6).risk_percent = 9/10)
    ∧ ((rcri_score b1 b2 b3 b4 b5 b6).score = 2
        → (rcri_score b1 b2 b3 b4 b5 b6).rclass = "Classe III"
          ∧ (rcri_score b1 b2 b3 b4 b5 b6).risk_percent = 7)
    ∧ (3 ≤ (rcri_score b1 b2 b3 b4 b5 b6).score
        → (rcri_score b1 b2 b3 b4 b5 b6).rclass = "Classe IV"
          ∧ (rcri_score b1 b2 b3 b4 b5 b6).risk_percent = 11)
    ∧ ((rcri_score b1 b2 b3 b4 b5 b6).risk_category = "Baixo"
        ↔ (rcri_score b1 b2 b3 b4 b5 b6).score = 0)
    ∧ ((rcri_score b1 b2 b3 b4 b5 b6).risk_category = "Intermediário"
        ↔ ((rcri_score b1 b2 b3 b4 b5 b6).score = 1
           ∨ (rcri_score b1 b2 b3 b4 b5 b6).score = 2))
    ∧ ((rcri_score b1 b2 b3 b4 b5 b6).risk_category = "Alto"
        ↔ 3 ≤ (rcri_score b1 b2 b3 b4 b5 b6).score)
    ∧ (calculate_rcri b1 b2 b3 b4 b5 b6).score = (rcri_score b1 b2 b3 b4 b5 b6).score
    ∧ ((calculate_rcri b1 b2 b3 b4 b5 b6).risk_category = "Baixo"
        ↔ (calculate_rcri b1 b2 b3 b4 b5 b6).score = 0)
    ∧ ((calculate_rcri b1 b2 b3 b4 b5 b6).risk_category = "Intermediário"
        ↔ ((calculate_rcri b1 b2 b3 b4 b5 b6).score = 1
           ∨ (calculate_rcri b1 b2 b3 b4 b5 b6).score = 2))
    ∧ ((calculate_rcri b1 b2 b3 b4 b5 b6).risk_category = "Alto"
        ↔ 3 ≤ (calculate_rcri b1 b2 b3 b4 b5 b6).score) := by
  intro b1 b2 b3 b4 b5 b6
  cases b1 <;> cases b2 <;> cases b3 <;> cases b4 <;> cases b5 <;> cases b6 <;>
    simp [rcri_score, calculate_rcri]

/-- C5 witness: with no factor asserted, the score is 0 and the mapping
gives Classe I with 0.4%. -/
theorem claim_C5_witness :
    (rcri_score false false false false false false).rclass = "Classe I"
    ∧ (rcri_score false false false false false false).risk_percent = 2/5 :=
  (claim_C5_rcri false false false false false false).2.2.2.2.2.2.2.2.1 rfl

/-- C6: in `ariscat_score`, with both age flags asserted, the 51–80 band
contributes 0 and the >80 band contributes its weight 16, so the age
contribution is exactly 16 and never 3+16=19; for every flag combination
the two age-band contributions are mutually exclusive. -/
theorem claim_C6_ariscat_age : ∀ (s ri a iau iit d23 d3 e a51 a80 : Bool),
    ((ariscat_score true true s ri a iau iit d23 d3 e).d_age_51_80 = 0
     ∧ (ariscat_score true true s ri a iau iit d23 d3 e).d_age_gt_80 = 16
     ∧ (ariscat_score true true s ri a iau iit d23 d3 e).d_age_51_80
        + (ariscat_score true true s ri a iau iit d23 d3 e).d_age_gt_80 = 16)
    ∧ ((ariscat_score a51 a80 s ri a iau iit d23 d3 e).d_age_51_80 = 0
       ∨ (ariscat_score a51 a80 s ri a iau iit d23 d3 e).d_age_gt_80 = 0) := by
  decide

/-- The error condition of the AKICS validation block, characterized. -/
theorem akics_valid_spec (idade : Int) (cr : ℚ) (tipo : String)
    (compl : Option String) :
    (akics_valid idade cr tipo compl).isSome = true ↔
      (idade < 0 ∨ 120 < idade ∨ cr < 0 ∨ 20 < cr
       ∨ validTipo (pyStrip (pyLower tipo)) = false
       ∨ (pyStrip (pyLower tipo) = "nao_cardiaca" ∧ badComplexity compl = true)) := by
  unfold akics_valid
  split_ifs with h1 h2 h3 h4
  · simp only [Option.isSome_some, true_iff]
    rcases h1 with h | h
    · exact Or.inl h
    · exact Or.inr (Or.inl h)
  · simp only [Option.isSome_some, true_iff]
    rcases h2 with h | h
    · exact Or.inr (Or.inr (Or.inl h))
    · exact Or.inr (Or.inr (Or.inr (Or.inl h)))
  · simp only [Option.isSome_some, true_iff]
    refine Or.inr (Or.inr (Or.inr (Or.inr (Or.inl ?_))))
    simpa [Bool.not_eq_true'] using h3
  · simp only [Option.isSome_some, true_iff]
    exact Or.inr (Or.inr (Or.inr (Or.inr (Or.inr h4))))
  · simp only [Option.isSome_none, Bool.false_eq_true, false_iff]
    push_neg at h1 h2
    intro hr
    rcases hr with h | h | h | h | h | h
    · exact absurd h (not_lt.mpr h1.1)
    · exact absurd h (not_lt.mpr h1.2)
    · exact absurd h (not_lt.mpr h2.1)
    · exact absurd h (not_lt.mpr h2.2)
    · rw [Bool.not_eq_true', Bool.not_eq_false] at h3
      exact absurd h3 (by simp [h])
    · exact h4 h

/-- C7 (amended): `akics_score` raises a validation error exactly when age
is outside [0,120], or creatinine is outside [0,20], or — beyond what the
claim lists — the surgery type fails its own validation (not one of the
four accepted values after lower/strip) or an invalid non-cardiac
complexity string was supplied.  With a valid surgery type and complexity
the error condition reduces to exactly the age/creatinine bounds;
validation precedes all point accumulation. -/
theorem claim_C7_akics_validation : ∀ (idade : Int) (sf ic hi em : Bool)
    (tipo : String) (cr : ℚ) (compl : Option String),
    (akics_score idade sf ic hi em tipo cr compl).isErr = true ↔
      (idade < 0 ∨ 120 < idade ∨ cr < 0 ∨ 20 < cr
       ∨ validTipo (pyStrip (pyLower tipo)) = false
       ∨ (pyStrip (pyLower tipo) = "nao_cardiaca" ∧ badComplexity compl = true)) := by
  intro idade sf ic hi em tipo cr compl
  rw [← akics_valid_spec idade cr tipo compl]
  cases h : akics_valid idade cr tipo compl <;>
    simp [akics_score, h, Except.isErr]

/-- C7 witness: age −1 and age 150 raise the validation failure, while age
0 and age 120 are accepted (with an otherwise valid input). -/
theorem claim_C7_witness :
    (akics_score (-1) false false false false "coronariana" 1 none).isErr = true
    ∧ (akics_score 150 false false false false "coronariana" 1 none).isErr = true
    ∧ (akics_score 0 false false false false "coronariana" 1 none).isErr = false
    ∧ (akics_score 120 false false false false "coronariana" 1 none).isErr = false :=
  ⟨(claim_C7_akics_validation (-1) false false false false "coronariana" 1 none).mpr
      (by decide),
   (claim_C7_akics_validation 150 false false false false "coronariana" 1 none).mpr
      (by decide),
   by decide, by decide⟩

/-- C7 counterexample: an input with age and creatinine both in range
still raises, because the surgery type "outra" fails the (unadvertised)
type validation — so the error condition is not "exactly" the
age/creatinine bounds. -/
theorem claim_C7_counterexample :
    (akics_score 50 false false false false "outra" 1 none).isErr = true
    ∧ (0 : Int) ≤ 50 ∧ (50 : Int) ≤ 120 ∧ (0 : ℚ) ≤ 1 ∧ (1 : ℚ) ≤ 20 := by
  decide

/-- C8: on the code-fenced raw text (a fence line, the JSON object
`{"recommendations": ["x"]}`, and a closing fence line)
with the general expected keys (which include the narrative summary key
`resumo_executivo`), the normalizer strips the fence, parses the JSON,
aliases `recommendations` to the canonical `recomendacoes` preserving
`["x"]`, and backfills the summary key with the empty string. -/
theorem claim_C8_fenced_recommendations :
    alGet (parse_response_text "```json\n\x7b\"recommendations\": [\"x\"]\x7d\n```"
      (some expected_general) (some defaults_general)) "resumo_executivo"
      = some (.str "")
    ∧ alGet (parse_response_text "```json\n\x7b\"recommendations\": [\"x\"]\x7d\n```"
      (some expected_general) (some defaults_general)) "recomendacoes"
      = some (.arr [.str "x"]) :=
  ⟨rfl, rfl⟩

/-- C9: `_run_gemini` is a total function of the per-attempt outcomes
(exceptions and timeouts are absorbed, never propagated): it returns
`none` exactly when the model is unavailable or no attempt within the
retry bound yields usable text, and whenever it returns text, that text is
nonempty and is the usable text of one of the attempts. -/
theorem claim_C9_run_gemini_total :
    ∀ (modelAvailable : Bool) (n : Int) (outs : List AttemptOutcome),
    ((run_gemini modelAvailable n outs).isNone
      = (decide (modelAvailable = false)
         || (outs.take (max 1 n).toNat).all (fun o => (usableOf o).isNone)))
    ∧ optionHolds
        (fun t => (t != "") && (outs.take (max 1 n).toNat).any (fun o => usableOf o == some t))
        (run_gemini modelAvailable n outs) = true := by
  intro ma n outs
  cases ma with
  | false =>
    constructor
    · simp [run_gemini]
    · simp [run_gemini, optionHolds]
  | true =>
    have h := runLoop_spec (outs.take (max 1 n).toNat)
    constructor
    · simpa [run_gemini] using h.1
    · simpa [run_gemini] using h.2

/-- C10: when the remote path yields no usable text, each of the three
analysis functions returns its fallback/default structure, stores it
(with empty raw text) in the cache under the payload's namespaced hash,
and any later call with the same payload and namespace returns that
cached fallback with zero further remote invocations — even when the
remote service would now succeed (`gem2` is arbitrary). -/
theorem claim_C10_fallback_cached (payload : JObj)
    (gem1 gem2 : String → Option String)
    (h : ∀ s, optTruthy (gem1 s) = false) :
    (analyze_general payload gem1 []).result = fallback_general
    ∧ (analyze_general payload gem1 []).geminiCalls = 1
    ∧ alGet (analyze_general payload gem1 []).cache
        (hash_patient_payload payload "general")
        = some (alSet fallback_general "_raw" (.str ""))
    ∧ (analyze_general payload gem2 (analyze_general payload gem1 []).cache).result
        = alSet fallback_general "_raw" (.str "")
    ∧ (analyze_general payload gem2 (analyze_general payload gem1 []).cache).geminiCalls = 0
    ∧ (analyze_medications payload gem1 []).result = defaults_medications
    ∧ (analyze_medications payload gem1 []).geminiCalls = 1
    ∧ alGet (analyze_medications payload gem1 []).cache
        (hash_patient_payload payload "medications")
        = some (alSet defaults_medications "_raw" (.str ""))
    ∧ (analyze_medications payload gem2 (analyze_medications payload gem1 []).cache).result
        = alSet defaults_medications "_raw" (.str "")
    ∧ (analyze_medications payload gem2 (analyze_medications payload gem1 []).cache).geminiCalls = 0
    ∧ (analyze_scores_interpretation payload gem1 []).result = defaults_scores_interpretation
    ∧ (analyze_scores_interpretation payload gem1 []).geminiCalls = 1
    ∧ alGet (analyze_scores_interpretation payload gem1 []).cache
        (hash_patient_payload payload "scores_interpretation")
        = some (alSet defaults_scores_interpretation "_raw" (.str ""))
    ∧ (analyze_scores_interpretation payload gem2
        (analyze_scores_interpretation payload gem1 []).cache).result
        = alSet defaults_scores_interpretation "_raw" (.str "")
    ∧ (analyze_scores_interpretation payload gem2
        (analyze_scores_interpretation payload gem1 []).cache).geminiCalls = 0 := by
  have e1 := analyze_general_notext payload gem1 [] rfl (h _)
  have hg1 : alGet (analyze_general payload gem1 []).cache
      (hash_patient_payload payload "general")
      = some (alSet fallback_general "_raw" (.str "")) := by
    rw [e1]; exact alGet_alSet_self _ _ _
  have x1 := analyze_general_hit payload gem2 (analyze_general payload gem1 []).cache
    _ hg1 (alSet_isEmpty _ _ _)
  have e2 := analyze_medications_notext payload gem1 [] rfl (h _)
  have hg2 : alGet (analyze_medications payload gem1 []).cache
      (hash_patient_payload payload "medications")
      = some (alSet defaults_medications "_raw" (.str "")) := by
    rw [e2]; exact alGet_alSet_self _ _ _
  have x2 := analyze_medications_hit payload gem2 (analyze_medications payload gem1 []).cache
    _ hg2 (alSet_isEmpty _ _ _)
  have e3 := analyze_scores_interpretation_notext payload gem1 [] rfl (h _)
  have hg3 : alGet (analyze_scores_interpretation payload gem1 []).cache
      (hash_patient_payload payload "scores_interpretation")
      = some (alSet defaults_scores_interpretation "_raw" (.str "")) := by
    rw [e3]; exact alGet_alSet_self _ _ _
  have x3 := analyze_scores_interpretation_hit payload gem2
    (analyze_scores_interpretation payload gem1 []).cache _ hg3 (alSet_isEmpty _ _ _)
  refine ⟨by rw [e1], by rw [e1], hg1, by rw [x1], by rw [x1],
    by rw [e2], by rw [e2], hg2, by rw [x2], by rw [x2],
    by rw [e3], by rw [e3], hg3, by rw [x3], by rw [x3]⟩

/-- C10 witness: concrete instantiation — remote yields nothing on the
first call, would succeed on the second, yet the second call returns the
cached fallback without invoking the remote path. -/
theorem claim_C10_witness :
    (analyze_general [] (fun _ => none) []).result = fallback_general
    ∧ (analyze_general [] (fun _ => some "ok")
        ((analyze_general [] (fun _ => none) []).cache)).geminiCalls = 0 :=
  ⟨(claim_C10_fallback_cached [] (fun _ => none) (fun _ => some "ok") (fun _ => rfl)).1,
   (claim_C10_fallback_cached [] (fun _ => none) (fun _ => some "ok") (fun _ => rfl)).2.2.2.2.1⟩
